import Mathlib

/-!
Shallow embedding of the invisible-character detector (src/main.rs) and
verification of the specification claims about its core: the classifier,
the path filter, the scanner, and the collector.
-/

set_option maxHeartbeats 1000000

/-- Embeds the Rust struct `Detection`: one suspicious code point occurrence.
Numeric fields are `Nat` (the Rust `usize`/`u32` values never overflow here). -/
structure Detection where
  file : String
  line : Nat
  byte_offset : Nat
  char_index : Nat
  char : String
  code : Nat
  name : String
  description : String
deriving DecidableEq, Repr

/-- Embeds the Rust struct `ScanConfig`. -/
structure ScanConfig where
  pattern : String
  json_output : Bool
  verbose : Bool
  fail_on_skip : Bool
  scan_bundles : Bool

/-- Embeds `get_suspicious_chars`: the fixed map from code point to
(name, description). The Rust `HashMap` has distinct keys, so an association
list with first-match lookup has the same lookup behaviour. -/
def get_suspicious_chars : List (Nat × String × String) :=
  [ (0x200B, "ZERO WIDTH SPACE", "Invisible character used to hide code"),
    (0x200C, "ZERO WIDTH NON-JOINER", "Can alter code logic invisibly"),
    (0x200D, "ZERO WIDTH JOINER", "Can alter code logic invisibly"),
    (0x2060, "WORD JOINER", "Invisible joiner; often used to hide payloads"),
    (0xFEFF, "ZERO WIDTH NO-BREAK SPACE", "BOM or invisible space"),
    (0x202A, "LEFT-TO-RIGHT EMBEDDING", "Bidi control; can mislead code review"),
    (0x202B, "RIGHT-TO-LEFT EMBEDDING", "Bidi control; can mislead code review"),
    (0x202C, "POP DIRECTIONAL FORMATTING", "Bidi control; terminates embeddings/overrides"),
    (0x202D, "LEFT-TO-RIGHT OVERRIDE", "Bidi override; can reorder displayed code"),
    (0x202E, "RIGHT-TO-LEFT OVERRIDE", "Bidi override; can reorder displayed code"),
    (0x2066, "LEFT-TO-RIGHT ISOLATE", "Bidi isolate; can affect display order"),
    (0x2067, "RIGHT-TO-LEFT ISOLATE", "Bidi isolate; can affect display order"),
    (0x2068, "FIRST STRONG ISOLATE", "Bidi isolate; can affect display order"),
    (0x2069, "POP DIRECTIONAL ISOLATE", "Bidi isolate terminator"),
    (0x200E, "LEFT-TO-RIGHT MARK", "Invisible directional marker"),
    (0x200F, "RIGHT-TO-LEFT MARK", "Invisible directional marker"),
    (0x061C, "ARABIC LETTER MARK", "Invisible directional marker"),
    (0xFE00, "VARIATION SELECTOR-0", "Can modify character appearance"),
    (0xFE01, "VARIATION SELECTOR-1", "Can modify character appearance"),
    (0xFE02, "VARIATION SELECTOR-2", "Can modify character appearance"),
    (0xFE03, "VARIATION SELECTOR-3", "Can modify character appearance"),
    (0xFE04, "VARIATION SELECTOR-4", "Can modify character appearance"),
    (0xFE05, "VARIATION SELECTOR-5", "Can modify character appearance"),
    (0xFE06, "VARIATION SELECTOR-6", "Can modify character appearance"),
    (0xFE07, "VARIATION SELECTOR-7", "Can modify character appearance"),
    (0xFE08, "VARIATION SELECTOR-8", "Can modify character appearance"),
    (0xFE09, "VARIATION SELECTOR-9", "Can modify character appearance"),
    (0xFE0A, "VARIATION SELECTOR-10", "Can modify character appearance"),
    (0xFE0B, "VARIATION SELECTOR-11", "Can modify character appearance"),
    (0xFE0C, "VARIATION SELECTOR-12", "Can modify character appearance"),
    (0xFE0D, "VARIATION SELECTOR-13", "Can modify character appearance"),
    (0xFE0E, "VARIATION SELECTOR-14", "Can modify character appearance"),
    (0xFE0F, "VARIATION SELECTOR-15", "Can modify character appearance"),
    (0x2028, "LINE SEPARATOR", "Can break parsing/tokenization"),
    (0x2029, "PARAGRAPH SEPARATOR", "Can break parsing/tokenization"),
    (0x3164, "HANGUL FILLER", "Often renders as blank; used for obfuscation"),
    (0x00AD, "SOFT HYPHEN", "Invisible in most contexts; used for obfuscation"),
    (0x00A0, "NO-BREAK SPACE", "Non-ASCII whitespace; may bypass naive filters"),
    (0x202F, "NARROW NO-BREAK SPACE", "Non-ASCII whitespace; may bypass naive filters"),
    (0x2007, "FIGURE SPACE", "Non-ASCII whitespace; may bypass naive filters") ]

/-- Embeds `is_private_use_area`: the three range checks exactly as written
in the source, including the second range whose lower bound 0xF0000 exceeds
its upper bound 0xFFFD. -/
def is_private_use_area (code : Nat) : Bool :=
  (decide (0xE000 ≤ code) && decide (code ≤ 0xF8FF))
    || (decide (0xF0000 ≤ code) && decide (code ≤ 0xFFFD))
    || (decide (0x100000 ≤ code) && decide (code ≤ 0x10FFFD))

/-- Embeds `is_suspicious_control_char`. -/
def is_suspicious_control_char (code : Nat) : Bool :=
  (decide (code ≤ 0x001F) && decide (code ≠ 0x0009) && decide (code ≠ 0x000A)
      && decide (code ≠ 0x000D))
    || (decide (0x007F ≤ code) && decide (code ≤ 0x009F))

/-- Uppercase hexadecimal digit for a value below 16, as produced by Rust's
uppercase hex formatting. -/
def hexDigit (n : Nat) : Char :=
  if n < 10 then Char.ofNat (48 + n) else Char.ofNat (55 + n)

/-- Digit accumulation loop for `hexDigits`, structurally recursive on a
fuel argument that always suffices because `n` strictly shrinks with each
division by 16. -/
def hexDigitsCore : Nat → Nat → List Char → List Char
  | 0, _, ds => ds
  | fuel + 1, n, ds =>
    if n / 16 = 0 then hexDigit (n % 16) :: ds
    else hexDigitsCore fuel (n / 16) (hexDigit (n % 16) :: ds)

/-- Uppercase hexadecimal digit list of a natural number (most significant
first, no leading zeros, a single 0 digit for zero). -/
def hexDigits (n : Nat) : List Char :=
  hexDigitsCore (n + 1) n []

/-- Embeds the Rust format specifier used at the `U+` call sites: uppercase
hex, zero padded on the left to a minimum width of four digits. -/
def formatHexMin4 (n : Nat) : String :=
  String.mk (List.replicate (4 - (hexDigits n).length) '0' ++ hexDigits n)

/-- The sixteen uppercase hexadecimal digit characters. -/
def hexUpperChars : List Char :=
  ['0', '1', '2', '3', '4', '5', '6', '7', '8', '9', 'A', 'B', 'C', 'D', 'E', 'F']

/-- The classification branch of `detect_invisible_characters`: table lookup,
then private use area, then control character, in the source's order, with
the source's exact name and description texts. -/
def classify (code : Nat) : Option (String × String) :=
  match get_suspicious_chars.lookup code with
  | some nd => some nd
  | none =>
    if is_private_use_area code then
      some ("PRIVATE USE AREA",
        "Private use character (U+" ++ formatHexMin4 code
          ++ ") - commonly used for payload hiding")
    else if is_suspicious_control_char code then
      some ("CONTROL CHARACTER",
        "Suspicious control character (U+" ++ formatHexMin4 code ++ ")")
    else
      none

/-- Embeds `is_ignored_component`. -/
def is_ignored_component (component : String) : Bool :=
  component = "node_modules" || component = ".git" || component = ".cargo"
    || component = "target" || component = ".vscode"

/-- The bundle-directory match of `should_ignore_path`. -/
def is_bundle_component (component : String) : Bool :=
  component = "dist" || component = "build" || component = "out"
    || component = ".next" || component = ".nuxt"

/-- Splitting a character list at every forward or back slash, with the
semantics of Rust's `str::split` by a character predicate: n separator
occurrences yield n+1 pieces, empty pieces included. -/
def split_path : List Char → List (List Char)
  | [] => [[]]
  | c :: rest =>
    if c = '/' ∨ c = '\\' then
      [] :: split_path rest
    else
      match split_path rest with
      | h :: t => (c :: h) :: t
      | [] => [[c]]

/-- The components of a path string after splitting on both slash kinds, as
computed inside `should_ignore_path`. -/
def path_components (path : String) : List String :=
  (split_path path.data).map String.mk

/-- Embeds `should_ignore_path`: component-exact matching against the
always-ignored set, then (when `scan_bundles` is false) the bundle set. -/
def should_ignore_path (path : String) (scan_bundles : Bool) : Bool :=
  let components := path_components path
  if components.any is_ignored_component then
    true
  else if !scan_bundles && components.any is_bundle_component then
    true
  else
    false

/-- The loop body of `detect_invisible_characters`, recursing over the
remaining characters and carrying the byte index of the current character,
the current line and the per-line character index. The byte index advances
by each character's UTF-8 size, mirroring `char_indices`. -/
def detectAux (file_path : String) :
    List Char → Nat → Nat → Nat → List Detection
  | [], _, _, _ => []
  | c :: rest, byte_i, line, char_index =>
    if c = '\n' then
      detectAux file_path rest (byte_i + c.utf8Size) (line + 1) 0
    else
      match classify c.toNat with
      | some nd =>
        { file := file_path, line := line, byte_offset := byte_i + 1,
          char_index := char_index + 1, char := String.mk [c], code := c.toNat,
          name := nd.1, description := nd.2 }
          :: detectAux file_path rest (byte_i + c.utf8Size) line (char_index + 1)
      | none => detectAux file_path rest (byte_i + c.utf8Size) line (char_index + 1)

/-- Embeds `detect_invisible_characters`: single pass over the content's
characters starting at byte index 0, line 1, char index 0. -/
def detect_invisible_characters (content : String) (file_path : String) :
    List Detection :=
  detectAux file_path content.data 0 1 0

/-- The per-candidate-path body of the loop in `scan_files`: skip ignored
paths counting them, otherwise count the path as scanned and either append
the scanner's detections or, on a read failure, count a skip as well. -/
def scan_step (readFile : String → Except String String) (scan_bundles : Bool)
    (acc : List Detection × Nat × Nat) (path : String) :
    List Detection × Nat × Nat :=
  if should_ignore_path path scan_bundles then
    (acc.1, acc.2.1, acc.2.2 + 1)
  else
    match readFile path with
    | Except.ok content =>
        (acc.1 ++ detect_invisible_characters content path, acc.2.1 + 1, acc.2.2)
    | Except.error _ => (acc.1, acc.2.1 + 1, acc.2.2 + 1)

/-- Embeds `scan_files`, with glob expansion and file reading injected as
capabilities: a malformed pattern is the only error outcome, every other
candidate is folded through `scan_step`. -/
def scan_files (globExpand : String → Except String (List String))
    (readFile : String → Except String String) (config : ScanConfig) :
    Except String (List Detection × Nat × Nat) :=
  match globExpand config.pattern with
  | Except.error e => Except.error ("Invalid glob pattern: " ++ e)
  | Except.ok entries =>
      Except.ok (entries.foldl (scan_step readFile config.scan_bundles) ([], 0, 0))

/-! Helper lemmas shared by the claim theorems. -/

/-- Association-list lookup misses when no key equals the query. -/
theorem lookup_eq_none_of_forall_ne {α : Type} {l : List (Nat × α)} {code : Nat}
    (h : ∀ p ∈ l, p.1 ≠ code) : l.lookup code = none := by
  induction l with
  | nil => rfl
  | cons p t ih =>
    obtain ⟨k, v⟩ := p
    have hk : (code == k) = false := by
      have hne := h (k, v) (List.mem_cons_self _ _)
      simp only [beq_eq_false_iff_ne, ne_eq]
      exact fun e => hne e.symm
    simp only [List.lookup, hk]
    exact ih fun q hq => h q (List.mem_cons_of_mem _ hq)

/-- Range characterisation of `is_private_use_area`, exactly as the source
writes the three disjuncts. -/
theorem pua_iff (code : Nat) :
    is_private_use_area code = true ↔
      ((0xE000 ≤ code ∧ code ≤ 0xF8FF) ∨ (0xF0000 ≤ code ∧ code ≤ 0xFFFD) ∨
       (0x100000 ≤ code ∧ code ≤ 0x10FFFD)) := by
  simp [is_private_use_area, or_assoc]

/-- Range characterisation of `is_suspicious_control_char`. -/
theorem control_iff (code : Nat) :
    is_suspicious_control_char code = true ↔
      ((code ≤ 0x1F ∧ code ≠ 0x09 ∧ code ≠ 0x0A ∧ code ≠ 0x0D) ∨
       (0x7F ≤ code ∧ code ≤ 0x9F)) := by
  simp [is_suspicious_control_char, and_assoc]

/-- Every key of the suspicious table lies in [0xA0, 0xFEFF] and outside the
basic-plane private use area. -/
theorem table_keys_bound :
    ∀ p ∈ get_suspicious_chars,
      0xA0 ≤ p.1 ∧ p.1 ≤ 0xFEFF ∧ ¬(0xE000 ≤ p.1 ∧ p.1 ≤ 0xF8FF) := by
  decide

/-- Private-use code points never hit the suspicious table. -/
theorem lookup_none_of_pua {code : Nat} (h : is_private_use_area code = true) :
    get_suspicious_chars.lookup code = none := by
  apply lookup_eq_none_of_forall_ne
  intro p hp
  have hb := table_keys_bound p hp
  have hr := (pua_iff code).mp h
  omega

/-- For a private-use code point, `classify` returns the fixed label and the
source's description text around the formatted code point. -/
theorem classify_private_use {code : Nat} (h : is_private_use_area code = true) :
    classify code = some ("PRIVATE USE AREA",
      "Private use character (U+" ++ formatHexMin4 code
        ++ ") - commonly used for payload hiding") := by
  simp [classify, lookup_none_of_pua h, h]

/-- For a suspicious control code point, `classify` returns the fixed label
and the source's description text around the formatted code point. -/
theorem classify_control {code : Nat} (h : is_suspicious_control_char code = true) :
    classify code = some ("CONTROL CHARACTER",
      "Suspicious control character (U+" ++ formatHexMin4 code ++ ")") := by
  have hrange : code ≤ 0x9F := by
    have := (control_iff code).mp h
    omega
  have hlk : get_suspicious_chars.lookup code = none := by
    apply lookup_eq_none_of_forall_ne
    intro p hp
    have := table_keys_bound p hp
    omega
  have hpua : is_private_use_area code = false :=
    Bool.eq_false_iff.mpr fun ht => by
      have := (pua_iff code).mp ht
      omega
  simp [classify, hlk, hpua, h]

/-- Each uppercase hex digit below 16 is one of the sixteen digit characters. -/
theorem hexDigit_mem_of_lt (m : Nat) (hm : m < 16) : hexDigit m ∈ hexUpperChars := by
  have h : ∀ m < 16, hexDigit m ∈ hexUpperChars := by decide
  exact h m hm

/-- The digit loop only ever emits uppercase hex digit characters. -/
theorem hexDigitsCore_mem :
    ∀ (fuel n : Nat) (ds : List Char), (∀ c ∈ ds, c ∈ hexUpperChars) →
      ∀ c ∈ hexDigitsCore fuel n ds, c ∈ hexUpperChars := by
  intro fuel
  induction fuel with
  | zero => exact fun n ds hds c hc => hds c hc
  | succ fuel ih =>
    intro n ds hds c hc
    simp only [hexDigitsCore] at hc
    by_cases h16 : n / 16 = 0
    · rw [if_pos h16] at hc
      rcases List.mem_cons.mp hc with rfl | hc
      · exact hexDigit_mem_of_lt _ (Nat.mod_lt _ (by omega))
      · exact hds c hc
    · rw [if_neg h16] at hc
      refine ih (n / 16) _ ?_ c hc
      intro x hx
      rcases List.mem_cons.mp hx with rfl | hx
      · exact hexDigit_mem_of_lt _ (Nat.mod_lt _ (by omega))
      · exact hds x hx

/-- The formatted code point has at least four digits. -/
theorem formatHexMin4_length (n : Nat) : 4 ≤ (formatHexMin4 n).length := by
  simp only [formatHexMin4, String.length_mk, List.length_append,
    List.length_replicate]
  omega

/-- Every character of the formatted code point is an uppercase hex digit. -/
theorem formatHexMin4_chars (n : Nat) :
    ∀ c ∈ (formatHexMin4 n).data, c ∈ hexUpperChars := by
  intro c hc
  have hc2 : c ∈ List.replicate (4 - (hexDigits n).length) '0' ++ hexDigits n := hc
  rcases List.mem_append.mp hc2 with hc3 | hc3
  · have := List.eq_of_mem_replicate hc3
    subst this
    decide
  · exact hexDigitsCore_mem (n + 1) n [] (by simp) c hc3

/-- Unfolding equation of the scan loop at a newline: the line counter is
incremented, the char index reset, the byte index advanced by one, and no
detection is emitted. -/
theorem detectAux_cons_newline (p : String) (rest : List Char) (b l ci : Nat) :
    detectAux p ('\n' :: rest) b l ci = detectAux p rest (b + 1) (l + 1) 0 := rfl

/-- Unfolding equation of the scan loop at a non-newline character that the
classifier does not flag. -/
theorem detectAux_cons_skip (p : String) (c : Char) (rest : List Char)
    (b l ci : Nat) (hc : c ≠ '\n') (hcl : classify c.toNat = none) :
    detectAux p (c :: rest) b l ci =
      detectAux p rest (b + c.utf8Size) l (ci + 1) := by
  simp only [detectAux, if_neg hc]
  rw [hcl]

/-- Unfolding equation of the scan loop at a non-newline character that the
classifier flags: the detection records the current line, the incremented
char index and the 1-indexed byte offset. -/
theorem detectAux_cons_found (p : String) (c : Char) (rest : List Char)
    (b l ci : Nat) (nd : String × String) (hc : c ≠ '\n')
    (hcl : classify c.toNat = some nd) :
    detectAux p (c :: rest) b l ci =
      { file := p, line := l, byte_offset := b + 1, char_index := ci + 1,
        char := String.mk [c], code := c.toNat, name := nd.1,
        description := nd.2 }
        :: detectAux p rest (b + c.utf8Size) l (ci + 1) := by
  simp only [detectAux, if_neg hc]
  rw [hcl]

/-- Invariant of the scan loop: starting from line `l ≥ 1`, every emitted
detection has a positive line and char index and a byte offset beyond the
current byte index, and byte offsets strictly increase along the output. -/
theorem detectAux_bounds (p : String) :
    ∀ (chars : List Char) (b l ci : Nat), 1 ≤ l →
      (∀ d ∈ detectAux p chars b l ci,
         1 ≤ d.line ∧ 1 ≤ d.char_index ∧ b + 1 ≤ d.byte_offset) ∧
      (detectAux p chars b l ci).Pairwise
        (fun d1 d2 => d1.byte_offset < d2.byte_offset) := by
  intro chars
  induction chars with
  | nil => intro b l ci _; simp [detectAux]
  | cons c rest ih =>
    intro b l ci hl
    by_cases hc : c = '\n'
    · subst hc
      rw [detectAux_cons_newline]
      have h := ih (b + 1) (l + 1) 0 (by omega)
      exact ⟨fun d hd => ⟨(h.1 d hd).1, (h.1 d hd).2.1,
        by have := (h.1 d hd).2.2; omega⟩, h.2⟩
    · have hpos : 1 ≤ c.utf8Size := Char.utf8Size_pos c
      cases hcl : classify c.toNat with
      | none =>
        rw [detectAux_cons_skip p c rest b l ci hc hcl]
        have h := ih (b + c.utf8Size) l (ci + 1) hl
        exact ⟨fun d hd => ⟨(h.1 d hd).1, (h.1 d hd).2.1,
          by have := (h.1 d hd).2.2; omega⟩, h.2⟩
      | some nd =>
        rw [detectAux_cons_found p c rest b l ci nd hc hcl]
        have h := ih (b + c.utf8Size) l (ci + 1) hl
        constructor
        · intro d hd
          rcases List.mem_cons.mp hd with rfl | hd
          · exact ⟨hl, by show 1 ≤ ci + 1; omega, by show b + 1 ≤ b + 1; omega⟩
          · exact ⟨(h.1 d hd).1, (h.1 d hd).2.1,
              by have := (h.1 d hd).2.2; omega⟩
        · refine List.pairwise_cons.mpr ⟨fun d hd => ?_, h.2⟩
          have := (h.1 d hd).2.2
          show b + 1 < d.byte_offset
          omega

/-- Component-wise reading of `is_ignored_component`. -/
theorem is_ignored_component_iff (comp : String) :
    is_ignored_component comp = true ↔
      (comp = "node_modules" ∨ comp = ".git" ∨ comp = ".cargo" ∨
       comp = "target" ∨ comp = ".vscode") := by
  simp [is_ignored_component]
  tauto

/-- Component-wise reading of the bundle-directory match. -/
theorem is_bundle_component_iff (comp : String) :
    is_bundle_component comp = true ↔
      (comp = "dist" ∨ comp = "build" ∨ comp = "out" ∨
       comp = ".next" ∨ comp = ".nuxt") := by
  simp [is_bundle_component]
  tauto

/-- The two-stage conditional of `should_ignore_path` as one boolean
expression. -/
theorem should_ignore_path_eq (path : String) (sb : Bool) :
    should_ignore_path path sb =
      ((path_components path).any is_ignored_component
        || (!sb && (path_components path).any is_bundle_component)) := by
  unfold should_ignore_path
  cases h1 : (path_components path).any is_ignored_component <;>
    cases h2 : (!sb && (path_components path).any is_bundle_component) <;>
      simp [h1, h2]

/-! The claim theorems. -/

/-- Claim C1: scanning the text "a​b\nc" (a, zero-width space, b,
newline, c) yields exactly one Detection, with line 1, char index 2, byte
offset 2 and name ZERO WIDTH SPACE. -/
theorem c1_scan_single_zwsp_detection :
    detect_invisible_characters "a​b\nc" "test.txt" =
      [{ file := "test.txt", line := 1, byte_offset := 2, char_index := 2,
         char := "​", code := 0x200B, name := "ZERO WIDTH SPACE",
         description := "Invisible character used to hide code" }] := by
  decide

/-- Claim C2: the private-use-area rule accepts a code point exactly when it
lies in one of the three source ranges (bounds inclusive), accepts 0xE000
and 0xF8FF, rejects 0xF900, and produces a description embedding the code
point as at-least-four-digit uppercase hex after a U+ prefix. -/
theorem c2_private_use_area_rule :
    (∀ code : Nat, is_private_use_area code = true ↔
       ((0xE000 ≤ code ∧ code ≤ 0xF8FF) ∨ (0xF0000 ≤ code ∧ code ≤ 0xFFFD) ∨
        (0x100000 ≤ code ∧ code ≤ 0x10FFFD))) ∧
    is_private_use_area 0xE000 = true ∧
    is_private_use_area 0xF8FF = true ∧
    is_private_use_area 0xF900 = false ∧
    (∀ code : Nat, is_private_use_area code = true →
       classify code = some ("PRIVATE USE AREA",
         "Private use character (U+" ++ formatHexMin4 code
           ++ ") - commonly used for payload hiding") ∧
       4 ≤ (formatHexMin4 code).length ∧
       ∀ ch ∈ (formatHexMin4 code).data, ch ∈ hexUpperChars) := by
  refine ⟨pua_iff, by decide, by decide, by decide, ?_⟩
  intro code h
  exact ⟨classify_private_use h, formatHexMin4_length code, formatHexMin4_chars code⟩

/-- Witness for C2 at the concrete code point 0xE000. -/
theorem c2_private_use_area_rule_witness :
    classify 0xE000 = some ("PRIVATE USE AREA",
      "Private use character (U+" ++ formatHexMin4 0xE000
        ++ ") - commonly used for payload hiding") ∧
    4 ≤ (formatHexMin4 0xE000).length ∧
    ∀ ch ∈ (formatHexMin4 0xE000).data, ch ∈ hexUpperChars :=
  c2_private_use_area_rule.2.2.2.2 0xE000 (by decide)

/-- Claim C3: every C0 code point other than TAB, LF and CR, and every code
point in [0x7F, 0x9F], is classified as CONTROL CHARACTER, while TAB, LF
and CR are never classified by any rule. -/
theorem c3_control_char_rule :
    (∀ code : Nat, code ≤ 0x1F → code ≠ 0x09 → code ≠ 0x0A → code ≠ 0x0D →
       classify code = some ("CONTROL CHARACTER",
         "Suspicious control character (U+" ++ formatHexMin4 code ++ ")")) ∧
    (∀ code : Nat, 0x7F ≤ code → code ≤ 0x9F →
       classify code = some ("CONTROL CHARACTER",
         "Suspicious control character (U+" ++ formatHexMin4 code ++ ")")) ∧
    classify 0x09 = none ∧ classify 0x0A = none ∧ classify 0x0D = none := by
  refine ⟨?_, ?_, by decide, by decide, by decide⟩
  · intro code h1 h9 h10 h13
    exact classify_control ((control_iff code).mpr (Or.inl ⟨h1, h9, h10, h13⟩))
  · intro code h7f h9f
    exact classify_control ((control_iff code).mpr (Or.inr ⟨h7f, h9f⟩))

/-- Witness for C3 at the concrete code points 0x00 and 0x7F. -/
theorem c3_control_char_rule_witness :
    classify 0x00 = some ("CONTROL CHARACTER",
      "Suspicious control character (U+" ++ formatHexMin4 0x00 ++ ")") ∧
    classify 0x7F = some ("CONTROL CHARACTER",
      "Suspicious control character (U+" ++ formatHexMin4 0x7F ++ ")") :=
  ⟨c3_control_char_rule.1 0x00 (by decide) (by decide) (by decide) (by decide),
   c3_control_char_rule.2.1 0x7F (by decide) (by decide)⟩

/-- Claim C4: classifying any code point of the suspicious table returns
exactly that entry's name and description, and the table's names are
pairwise distinct. -/
theorem c4_suspicious_table_roundtrip :
    (∀ p ∈ get_suspicious_chars, classify p.1 = some p.2) ∧
    (get_suspicious_chars.map (fun p => p.2.1)).Nodup := by
  decide

/-- Witness for C4 at the zero width space entry. -/
theorem c4_suspicious_table_roundtrip_witness :
    classify 0x200B = some ("ZERO WIDTH SPACE",
      "Invisible character used to hide code") :=
  c4_suspicious_table_roundtrip.1
    (0x200B, "ZERO WIDTH SPACE", "Invisible character used to hide code")
    (by decide)

/-- Claim C5: the path filter excludes a path exactly when some slash-split
component equals one of the always-ignored directory names, or the bundle
flag is off and some component equals one of the bundle directory names;
with the three concrete example paths of the specification. -/
theorem c5_path_filter_rule :
    (∀ (path : String) (scan_bundles : Bool),
       should_ignore_path path scan_bundles = true ↔
         ((∃ comp ∈ path_components path,
             comp = "node_modules" ∨ comp = ".git" ∨ comp = ".cargo" ∨
             comp = "target" ∨ comp = ".vscode") ∨
          (scan_bundles = false ∧ ∃ comp ∈ path_components path,
             comp = "dist" ∨ comp = "build" ∨ comp = "out" ∨
             comp = ".next" ∨ comp = ".nuxt"))) ∧
    (∀ sb : Bool, should_ignore_path "src/node_modules/x.js" sb = true) ∧
    should_ignore_path "src/dist/x.js" false = true ∧
    should_ignore_path "src/dist/x.js" true = false ∧
    (∀ sb : Bool, should_ignore_path "src/my-dist-thing/x.js" sb = false) := by
  refine ⟨?_, ?_, by decide, by decide, ?_⟩
  · intro path sb
    rw [should_ignore_path_eq]
    simp only [Bool.or_eq_true, Bool.and_eq_true, Bool.not_eq_true',
      List.any_eq_true, is_ignored_component_iff, is_bundle_component_iff]
  · intro sb
    cases sb <;> decide
  · intro sb
    cases sb <;> decide

/-- Witness for C5: the exclusion of "src/node_modules/x.js" transported
through the component characterisation. -/
theorem c5_path_filter_rule_witness :
    (∃ comp ∈ path_components "src/node_modules/x.js",
       comp = "node_modules" ∨ comp = ".git" ∨ comp = ".cargo" ∨
       comp = "target" ∨ comp = ".vscode") ∨
    (true = false ∧ ∃ comp ∈ path_components "src/node_modules/x.js",
       comp = "dist" ∨ comp = "build" ∨ comp = "out" ∨
       comp = ".next" ∨ comp = ".nuxt") :=
  (c5_path_filter_rule.1 "src/node_modules/x.js" true).mp (by decide)

/-- Claim C6: a newline increments the line counter, resets the char index
to 0, advances one byte and emits no Detection; a classified character
immediately following the newline is recorded with char index 1 and a line
one greater than before the newline. -/
theorem c6_newline_line_tracking :
    (∀ (path : String) (rest : List Char) (b l ci : Nat),
       detectAux path ('\n' :: rest) b l ci =
         detectAux path rest (b + 1) (l + 1) 0) ∧
    (∀ (path : String) (c : Char) (rest : List Char) (b l ci : Nat)
       (nm ds : String), c ≠ '\n' → classify c.toNat = some (nm, ds) →
       detectAux path ('\n' :: c :: rest) b l ci =
         { file := path, line := l + 1, byte_offset := b + 2, char_index := 1,
           char := String.mk [c], code := c.toNat, name := nm,
           description := ds }
           :: detectAux path rest (b + 1 + c.utf8Size) (l + 1) 1) := by
  refine ⟨fun path rest b l ci => rfl, ?_⟩
  intro path c rest b l ci nm ds hc hcl
  rw [detectAux_cons_newline,
    detectAux_cons_found path c rest (b + 1) (l + 1) 0 (nm, ds) hc hcl]

/-- Witness for C6 at a newline followed by a zero width space. -/
theorem c6_newline_line_tracking_witness :
    detectAux "f" ['\n', '​'] 0 1 0 =
      [{ file := "f", line := 2, byte_offset := 2, char_index := 1,
         char := "​", code := 0x200B, name := "ZERO WIDTH SPACE",
         description := "Invisible character used to hide code" }] := by
  have h := c6_newline_line_tracking.2 "f" '​' [] 0 1 0 "ZERO WIDTH SPACE"
    "Invisible character used to hide code" (by decide) (by decide)
  exact h.trans (by decide)

/-- Claim C7: every Detection of a scan has line, char index and byte
offset at least 1, and byte offsets strictly increase along the scan. -/
theorem c7_detection_invariants (content path : String) :
    (∀ d ∈ detect_invisible_characters content path,
       1 ≤ d.line ∧ 1 ≤ d.char_index ∧ 1 ≤ d.byte_offset) ∧
    (detect_invisible_characters content path).Pairwise
      (fun d1 d2 => d1.byte_offset < d2.byte_offset) := by
  have h := detectAux_bounds path content.data 0 1 0 (by omega)
  exact ⟨fun d hd => h.1 d hd, h.2⟩

/-- Witness for C7 at the concrete C1 text. -/
theorem c7_detection_invariants_witness :
    (∀ d ∈ detect_invisible_characters "a​b\nc" "t.txt",
       1 ≤ d.line ∧ 1 ≤ d.char_index ∧ 1 ≤ d.byte_offset) ∧
    (detect_invisible_characters "a​b\nc" "t.txt").Pairwise
      (fun d1 d2 => d1.byte_offset < d2.byte_offset) :=
  c7_detection_invariants "a​b\nc" "t.txt"

/-- Claim C8: the collector errors exactly when glob expansion of the
pattern errors, and a per-file read failure only increments the counters
and lets the fold continue with the remaining candidates. -/
theorem c8_collector_error_handling
    (globExpand : String → Except String (List String))
    (readFile : String → Except String String) (config : ScanConfig) :
    ((∃ e, scan_files globExpand readFile config = Except.error e) ↔
      (∃ e, globExpand config.pattern = Except.error e)) ∧
    (∀ (path : String) (rest : List String) (dets : List Detection)
       (scanned skipped : Nat) (e : String),
       should_ignore_path path config.scan_bundles = false →
       readFile path = Except.error e →
       (path :: rest).foldl (scan_step readFile config.scan_bundles)
           (dets, scanned, skipped) =
         rest.foldl (scan_step readFile config.scan_bundles)
           (dets, scanned + 1, skipped + 1)) := by
  constructor
  · cases hg : globExpand config.pattern with
    | error e => simp [scan_files, hg]
    | ok entries => simp [scan_files, hg]
  · intro path rest dets scanned skipped e hig hrd
    simp [List.foldl, scan_step, hig, hrd]

/-- Witness for C8: a malformed pattern yields an error, and a failed read
of "x.txt" increments both counters while the fold proceeds. -/
theorem c8_collector_error_handling_witness :
    (∃ e, scan_files (fun _ => Except.error "bad") (fun _ => Except.ok "")
        { pattern := "**", json_output := false, verbose := false,
          fail_on_skip := false, scan_bundles := false } = Except.error e) ∧
    (["x.txt"].foldl (scan_step (fun _ => Except.error "io") false)
        ([], 0, 0) =
      ([] : List String).foldl (scan_step (fun _ => Except.error "io") false)
        ([], 1, 1)) := by
  constructor
  · exact (c8_collector_error_handling (fun _ => Except.error "bad")
      (fun _ => Except.ok "")
      { pattern := "**", json_output := false, verbose := false,
        fail_on_skip := false, scan_bundles := false }).1.mpr ⟨"bad", rfl⟩
  · exact (c8_collector_error_handling (fun _ => Except.error "bad")
      (fun _ => Except.error "io")
      { pattern := "**", json_output := false, verbose := false,
        fail_on_skip := false, scan_bundles := false }).2
      "x.txt" [] [] 0 0 "io" (by decide) rfl

/-- Claim C9: the second private-use range is empty because its lower bound
exceeds its upper bound, so no plane-15 private-use code point (0xF0000
included) is accepted, and only the two other ranges are effective. -/
theorem c9_dead_pua_range :
    (∀ code : Nat, ¬(0xF0000 ≤ code ∧ code ≤ 0xFFFD)) ∧
    is_private_use_area 0xF0000 = false ∧
    (∀ code : Nat, 0xF0000 ≤ code → code ≤ 0xFFFFD →
       is_private_use_area code = false) ∧
    (∀ code : Nat, is_private_use_area code = true ↔
       ((0xE000 ≤ code ∧ code ≤ 0xF8FF) ∨
        (0x100000 ≤ code ∧ code ≤ 0x10FFFD))) := by
  refine ⟨by omega, by decide, ?_, ?_⟩
  · intro code h1 h2
    refine Bool.eq_false_iff.mpr fun ht => ?_
    have := (pua_iff code).mp ht
    omega
  · intro code
    rw [pua_iff]
    omega

/-- Witness for C9 inside the dead plane-15 range. -/
theorem c9_dead_pua_range_witness : is_private_use_area 0xF1234 = false :=
  c9_dead_pua_range.2.2.1 0xF1234 (by decide) (by decide)

/-- Claim C10: the table labels the sixteen variation selectors 0 through
15: code point 0xFE00 + k is named VARIATION SELECTOR-k for every k below
16. -/
theorem c10_variation_selector_labels :
    ∀ k : Nat, k < 16 →
      get_suspicious_chars.lookup (0xFE00 + k) =
        some ("VARIATION SELECTOR-" ++ Nat.repr k,
          "Can modify character appearance") := by
  decide

/-- Witness for C10 at k = 0. -/
theorem c10_variation_selector_labels_witness :
    get_suspicious_chars.lookup (0xFE00 + 0) =
      some ("VARIATION SELECTOR-" ++ Nat.repr 0,
        "Can modify character appearance") :=
  c10_variation_selector_labels 0 (by decide)
